import Mathlib

/-!
Shallow embedding of the `compassion-map-demo` repository (Django app):
`centers/models.py` (ProjectCenter, Participant, UserProfile, AuditLog) and
`centers/views.py` (participant CRUD handlers, CSV staged-import pipeline,
audit logging helper).

Modelling conventions:
* The database is an explicit `DB` value (lists of rows); foreign keys are
  encoded by the unique `center_code` of the referenced `ProjectCenter`.
* Machine decimals (`DecimalField(max_digits=9, decimal_places=6)`) are
  modelled by a plain-format decimal string parser (`decParse`) returning an
  exact rational value plus the digit counts that Django's `DecimalValidator`
  inspects.  Exponent/NaN spellings of Python's `Decimal` are not modelled;
  such inputs are treated as parse failures.
* Timestamps (`auto_now_add`) are not modelled: no verified claim depends on
  wall-clock time.
* Exceptions become `Except`/`Option` results; an `Except.error` result
  carries no updated state, modelling a handler that raises before mutating.
* The possibility that the audit-log backend itself raises on insert is
  modelled by an explicit `logFails : Bool` parameter threaded to the
  handlers (the body of `_log_action` swallows the exception either way).
-/

/-! ## Decimal strings: model of `Decimal(str)` + Django validators -/

/-- Result of parsing a plain decimal string: sign, integer digits and
fractional digits exactly as written. -/
structure DecParse where
  neg : Bool
  intDigits : List Char
  fracDigits : List Char
  deriving Repr, DecidableEq

/-- Split a leading run of ASCII digits from a character list. -/
def takeDigits : List Char → List Char × List Char
  | [] => ([], [])
  | c :: cs =>
    if c.isDigit then
      let (d, r) := takeDigits cs
      (c :: d, r)
    else ([], c :: cs)

/-- Parse a plain decimal string: optional sign, digits, optional point and
digits; at least one digit overall, nothing left over.  Models the accepted
plain-number forms of Python `Decimal(value)` (exponent forms excluded, see
module docstring). -/
def decParse (s : String) : Option DecParse :=
  let cs := s.toList
  let signed : Bool × List Char :=
    match cs with
    | '-' :: t => (true, t)
    | '+' :: t => (false, t)
    | _ => (false, cs)
  let (ip, r1) := takeDigits signed.2
  match r1 with
  | [] => if ip.isEmpty then none else some ⟨signed.1, ip, []⟩
  | '.' :: r2 =>
    let (fp, r3) := takeDigits r2
    if r3.isEmpty && !(ip.isEmpty && fp.isEmpty) then some ⟨signed.1, ip, fp⟩
    else none
  | _ => none

/-- Numeric value of a digit list. -/
def digitsVal (l : List Char) : Nat :=
  l.foldl (fun a c => 10 * a + (c.toNat - 48)) 0

/-- Number of written fractional digits. -/
def DecParse.scale (d : DecParse) : Nat := d.fracDigits.length

/-- The written coefficient with its sign: the parsed decimal's exact value
is `scaledNum / 10 ^ scale`. -/
def DecParse.scaledNum (d : DecParse) : Int :=
  (if d.neg then -1 else 1) * (digitsVal (d.intDigits ++ d.fracDigits) : Int)

/-- Exact rational value of a parsed decimal. -/
def DecParse.val (d : DecParse) : Rat :=
  (d.scaledNum : Rat) / ((10 : Rat) ^ d.scale)

/-- Length of the coefficient digit tuple of the corresponding Python
`Decimal` (leading zeros of the written coefficient are dropped; the zero
coefficient still has one digit). -/
def DecParse.digitTupleLen (d : DecParse) : Nat :=
  max 1 (((d.intDigits ++ d.fracDigits).dropWhile (· == '0')).length)

/-- Django `DecimalValidator(max_digits, decimal_places)` check. -/
def decimalValidatorOk (max_digits decimal_places : Nat) (d : DecParse) : Bool :=
  let decimals := d.fracDigits.length
  let digits := max d.digitTupleLen decimals
  decide (digits ≤ max_digits) && decide (decimals ≤ decimal_places) &&
    decide (digits - decimals ≤ max_digits - decimal_places)

/-- Full cleaning of one `DecimalField(max_digits=9, decimal_places=6)` with
`MinValueValidator lo` and `MaxValueValidator hi`: parse, run validators,
return the exact value on success.  The range guard is the integer form of
`lo ≤ val ∧ val ≤ hi` over the exact decimal value (see
`DecParse.int_le_val_iff` and `DecParse.val_le_int_iff`). -/
def cleanDecimal (lo hi : Int) (s : String) : Option Rat :=
  match decParse s with
  | none => none
  | some d =>
    if decimalValidatorOk 9 6 d &&
        decide (lo * 10 ^ d.scale ≤ d.scaledNum) &&
        decide (d.scaledNum ≤ hi * 10 ^ d.scale) then
      some d.val
    else none

/-- Model of Python `str.strip()` (default whitespace), implemented by
structural recursion on the character list. -/
def pyStrip (s : String) : String :=
  ⟨((s.data.dropWhile Char.isWhitespace).reverse.dropWhile
      Char.isWhitespace).reverse⟩

/-- Model of Python `str.upper()` over the character list. -/
def pyUpper (s : String) : String :=
  ⟨s.data.map Char.toUpper⟩

theorem DecParse.int_le_val_iff (d : DecParse) (m : Int) :
    ((m : Rat) ≤ d.val) ↔ (m * 10 ^ d.scale ≤ d.scaledNum) := by
  unfold DecParse.val
  rw [le_div_iff₀ (by positivity)]
  constructor
  · intro h
    exact_mod_cast h
  · intro h
    exact_mod_cast h

theorem DecParse.val_le_int_iff (d : DecParse) (m : Int) :
    (d.val ≤ (m : Rat)) ↔ (d.scaledNum ≤ m * 10 ^ d.scale) := by
  unfold DecParse.val
  rw [div_le_iff₀ (by positivity)]
  constructor
  · intro h
    exact_mod_cast h
  · intro h
    exact_mod_cast h

/-! ## Data model (`centers/models.py`) -/

/-- `ProjectCenter` model row.  `center_code` is declared `unique=True`. -/
structure ProjectCenter where
  name : String := ""
  center_code : String
  territory : String := ""
  cluster : String := ""
  latitude : Rat := 0
  longitude : Rat := 0
  beneficiaries : Nat := 0
  address : String := ""
  deriving Repr, DecidableEq

/-- `Participant` model row (cleaned values).  `participant_id` is declared
`unique=True`; `project_center` is the FK, encoded by center code; `pk` is
the auto primary key. -/
structure Participant where
  pk : Nat
  project_center : String
  participant_name : String
  participant_id : String
  sex : String
  caregiver_name : String
  house_latitude : Rat
  house_longitude : Rat
  deriving Repr, DecidableEq

/-- `UserProfile`: one-to-one link from a username to the center it
administers (FK encoded by center code). -/
structure UserProfile where
  username : String
  project_center : String
  deriving Repr, DecidableEq

/-- `AuditLog` model row.  `pk = none` models an unsaved instance
(`self.pk is None`). -/
structure AuditLog where
  pk : Option Nat := none
  user : Option String := none
  action : String
  project_center : Option String := none
  participant_id : Option String := none
  details : String := ""
  deriving Repr, DecidableEq

/-- The relational state: all persisted rows plus the participant
auto-pk counter. -/
structure DB where
  centers : List ProjectCenter := []
  participants : List Participant := []
  profiles : List UserProfile := []
  auditLogs : List AuditLog := []
  nextParticipantPk : Nat := 0
  deriving Repr, DecidableEq

/-- `ProjectCenter.objects.get(center_code=code)` (unique column, so the
first match is the row). -/
def findCenter (db : DB) (code : String) : Option ProjectCenter :=
  db.centers.find? (fun c => c.center_code == code)

/-- `Participant.objects.filter(participant_id=pid).exists()`. -/
def participantIdExists (db : DB) (pid : String) : Bool :=
  db.participants.any (fun p => p.participant_id == pid)

/-- Uniqueness re-check performed by `Model.full_clean` / `validate_unique`:
when the instance already has a primary key the instance itself is excluded
from the collision scan. -/
def participantIdTaken (db : DB) (excludePk : Option Nat) (pid : String) : Bool :=
  db.participants.any (fun p => p.participant_id == pid && excludePk != some p.pk)

/-- `CharField` cleaning with `blank=False`: non-empty and within
`max_length`. -/
def charFieldOk (maxLen : Nat) (s : String) : Bool :=
  !(s == "") && decide (s.length ≤ maxLen)

/-- Cleaned participant field values produced by a successful
`full_clean` (before the FK is attached). -/
structure CleanedParticipant where
  participant_name : String
  participant_id : String
  sex : String
  caregiver_name : String
  house_latitude : Rat
  house_longitude : Rat
  deriving Repr, DecidableEq

/-- `Participant.full_clean()` over the non-FK fields: `CharField` checks,
participant-id uniqueness (`validate_unique`, excluding the instance when it
has a pk), the `sex` choices check, and both geocoordinate
`DecimalField`s with their range validators. -/
def full_clean (db : DB) (excludePk : Option Nat)
    (pname pid sex cg lat lng : String) : Option CleanedParticipant :=
  if !charFieldOk 200 pname then none
  else if !charFieldOk 50 pid then none
  else if participantIdTaken db excludePk pid then none
  else if !(sex == "M" || sex == "F") then none
  else if !charFieldOk 200 cg then none
  else
    match cleanDecimal (-90) 90 lat, cleanDecimal (-180) 180 lng with
    | some la, some lo => some ⟨pname, pid, sex, cg, la, lo⟩
    | _, _ => none

/-! ## AuditLog immutability (`models.py` lines 113-125) -/

/-- `AuditLog.save`: creation (no pk) appends the row with a fresh pk;
any save of an already-persisted row raises `ValidationError` before
touching storage. -/
def AuditLog.save (log : AuditLog) (logs : List AuditLog) :
    Except String (List AuditLog) :=
  if log.pk.isSome then
    .error "Audit logs are immutable and cannot be edited."
  else .ok (logs ++ [{ log with pk := some logs.length }])

/-- `AuditLog.delete`: always raises `ValidationError`, storage untouched. -/
def AuditLog.delete (_ : AuditLog) (_ : List AuditLog) :
    Except String (List AuditLog) :=
  .error "Audit logs are immutable and cannot be deleted."

/-- `_log_action` (`views.py` lines 21-35): try to create an audit row; any
exception — including a raising backend, modelled by `logFails` — is
swallowed and the database is left as it was. -/
def _log_action (logFails : Bool) (db : DB) (user : Option String)
    (action : String) (project_center : Option String)
    (participant_id : Option String) (details : String) : DB :=
  if logFails then db
  else
    match AuditLog.save
        { user := user, action := action, project_center := project_center,
          participant_id := participant_id, details := details }
        db.auditLogs with
    | .ok logs => { db with auditLogs := logs }
    | .error _ => db

/-! ## Users and roles (`views.py` lines 38-67, 108-112) -/

/-- Authenticated request user: username, superuser flag and group names. -/
structure User where
  username : String
  is_superuser : Bool := false
  groups : List String := []
  is_authenticated : Bool := true
  deriving Repr, DecidableEq

/-- `is_national_officer`: member of the group named `National Office`. -/
def is_national_officer (u : User) : Bool :=
  u.is_authenticated && u.groups.contains "National Office"

/-- `is_national_or_superuser`: superuser or national officer. -/
def is_national_or_superuser (u : User) : Bool :=
  u.is_authenticated && (u.is_superuser || is_national_officer u)

/-- `_get_user_center`: the center code of the caller's `UserProfile`, or
`none` when no profile row exists. -/
def _get_user_center (db : DB) (u : User) : Option String :=
  (db.profiles.find? (fun pr => pr.username == u.username)).map (·.project_center)

/-! ## CSV rows (`participant_upload.parse_csv`, `views.py` lines 325-391) -/

/-- One staged row of the preview buffer: the dict `r` built per CSV line. -/
structure Row where
  row_number : Nat
  center_code : String
  participant_name : String
  participant_id : String
  sex : String
  caregiver_name : String
  house_latitude : String
  house_longitude : String
  is_valid : Bool
  error : String
  deriving Repr, DecidableEq

/-- `(row.get(k) or "").strip()` over a `csv.DictReader` row, which maps the
raw (unstripped) fieldnames to the cell values; a missing key yields the
empty string. -/
def dictGet (row : List (String × String)) (k : String) : String :=
  pyStrip ((row.lookup k).getD "")

/-- Build the annotated dict for CSV line `idx` (fields stripped, sex
upper-cased, initially marked valid). -/
def buildRow (idx : Nat) (row : List (String × String)) : Row where
  row_number := idx
  center_code := dictGet row "center_code"
  participant_name := dictGet row "participant_name"
  participant_id := dictGet row "participant_id"
  sex := pyUpper (dictGet row "sex")
  caregiver_name := dictGet row "caregiver_name"
  house_latitude := dictGet row "house_latitude"
  house_longitude := dictGet row "house_longitude"
  is_valid := true
  error := ""

/-- The per-row `try` block of `parse_csv`: any failed check marks the row
invalid with a reason; a row that passes every check is returned unchanged. -/
def validateRow (db : DB) (r : Row) : Row :=
  if r.center_code == "" then
    { r with is_valid := false, error := "center_code is empty" }
  else
    match findCenter db r.center_code with
    | none =>
      { r with is_valid := false,
               error := "ProjectCenter matching query does not exist." }
    | some _ =>
      if r.participant_id == "" then
        { r with is_valid := false, error := "participant_id is empty" }
      else if participantIdExists db r.participant_id then
        { r with is_valid := false, error := "participant_id already exists" }
      else
        match full_clean db none r.participant_name r.participant_id r.sex
            r.caregiver_name r.house_latitude r.house_longitude with
        | none => { r with is_valid := false, error := "validation failed" }
        | some _ => r

/-- The fixed required header set. -/
def required_cols : List String :=
  ["center_code", "participant_name", "participant_id", "sex",
   "caregiver_name", "house_latitude", "house_longitude"]

/-- `parse_csv`: reject a header-less file; reject when a required column is
absent from the stripped header names; otherwise annotate every data row.
`fieldnames` are the raw header cells and each data row is keyed by them
(`csv.DictReader` semantics), numbering from 2. -/
def parse_csv (db : DB) (fieldnames : List String)
    (data : List (List String)) : Except String (List Row) :=
  if fieldnames.isEmpty then .error "CSV has no headers."
  else
    let headers := fieldnames.map pyStrip
    let missing := required_cols.filter (fun c => !headers.contains c)
    if !missing.isEmpty then
      .error ("Missing columns: " ++ String.intercalate ", " missing)
    else
      .ok (data.enum.map (fun pr =>
        validateRow db (buildRow (pr.1 + 2) (fieldnames.zip pr.2))))

/-! ## Confirm-import commit loop (`views.py` lines 400-448) -/

/-- Accumulator of the commit loop: database plus the
`created`/`skipped`/`errors`/`created_centers` counters. -/
structure CommitState where
  db : DB
  created : Nat
  skipped : Nat
  errors : List String
  created_centers : List String
  deriving Repr, DecidableEq

/-- `set.add`: append the code unless already present. -/
def insertCenterCode (l : List String) (c : String) : List String :=
  if l.contains c then l else l ++ [c]

/-- One iteration of the commit loop: preview-invalid rows are skipped
outright; otherwise the row is re-checked against the current database
(center still resolves, id still unused, `full_clean` passes) and either
saved or counted as a skip, never aborting the batch. -/
def commitStep (st : CommitState) (r : Row) : CommitState :=
  if !r.is_valid then { st with skipped := st.skipped + 1 }
  else
    match findCenter st.db r.center_code with
    | none =>
      { st with skipped := st.skipped + 1,
                errors := st.errors ++
                  ["Row " ++ toString r.row_number ++
                   ": ProjectCenter matching query does not exist."] }
    | some center =>
      if participantIdExists st.db r.participant_id then
        { st with skipped := st.skipped + 1 }
      else
        match full_clean st.db none r.participant_name r.participant_id r.sex
            r.caregiver_name r.house_latitude r.house_longitude with
        | none =>
          { st with skipped := st.skipped + 1,
                    errors := st.errors ++
                      ["Row " ++ toString r.row_number ++
                       ": validation failed"] }
        | some c =>
          let p : Participant :=
            { pk := st.db.nextParticipantPk,
              project_center := center.center_code,
              participant_name := c.participant_name,
              participant_id := c.participant_id,
              sex := c.sex,
              caregiver_name := c.caregiver_name,
              house_latitude := c.house_latitude,
              house_longitude := c.house_longitude }
          { st with
            db := { st.db with
                    participants := st.db.participants ++ [p],
                    nextParticipantPk := st.db.nextParticipantPk + 1 },
            created := st.created + 1,
            created_centers := insertCenterCode st.created_centers
              center.center_code }

/-- The whole `for r in rows` commit loop. -/
def commitRows (db : DB) (rows : List Row) : CommitState :=
  rows.foldl commitStep ⟨db, 0, 0, [], []⟩

/-- Insertion of one string into an ascending list (lexicographic). -/
def insertSorted (s : String) : List String → List String
  | [] => [s]
  | t :: ts => if decide (s ≤ t) then s :: t :: ts else t :: insertSorted s ts

/-- `sorted(...)` on strings. -/
def sortStrings (l : List String) : List String :=
  l.foldr insertSorted []

/-- A single-quote character, written via its code point. -/
def squote : String := String.singleton (Char.ofNat 39)

/-- Python `repr` of a list of strings, as interpolated into an f-string. -/
def pyListRepr (l : List String) : String :=
  "[" ++ String.intercalate ", " (l.map (fun s => squote ++ s ++ squote)) ++ "]"

/-- The `details` f-string of the post-commit audit entry. -/
def importDetails (created skipped : Nat) (centers : List String) : String :=
  "CSV import completed. Created=" ++ toString created ++
    ", Skipped=" ++ toString skipped ++
    ", Centers=" ++ pyListRepr (sortStrings centers)

/-! ## View handlers (`views.py`) -/

/-- The HTTP outcome of a handler. -/
inductive Response where
  | redirectAdmin
  | redirectNamed (name : String)
  | forbidden (msg : String)
  | notFound
  | page (template : String)
  deriving Repr, DecidableEq

/-- Raw (string-valued) `ParticipantForm` POST data, staff variant: the
`project_center` field is removed and set by the view. -/
structure RawForm where
  participant_name : String
  participant_id : String
  sex : String
  caregiver_name : String
  house_latitude : String
  house_longitude : String
  deriving Repr, DecidableEq

/-- Result of a mutating handler: new database, HTTP outcome, and the
`messages` queue as (level, text) pairs. -/
structure MutResult where
  db : DB
  response : Response
  msgs : List (String × String)
  deriving Repr, DecidableEq

/-- `participant_list` (lines 115-146): resolve the caller's center and
return that center's participants only (the `order_by` presentation
ordering is not modelled; membership is unaffected). -/
def participant_list (db : DB) (u : User) : Response × List Participant :=
  match _get_user_center db u with
  | none =>
    if u.is_superuser then (.redirectAdmin, [])
    else if is_national_officer u then (.redirectNamed "national_dashboard", [])
    else (.forbidden
      "Your account is not linked to any Project Center. Contact the admin.", [])
  | some center =>
    (.page "centers/participants_list.html",
     db.participants.filter (fun p => p.project_center == center))

/-- `participant_add` (lines 149-187): staff creation path.  On a valid
POST the participant is saved with the staff center attached, a CREATE
audit entry is attempted, and the handler redirects with a success
message. -/
def participant_add (logFails : Bool) (db : DB) (u : User) (isPost : Bool)
    (raw : RawForm) : MutResult :=
  if is_national_officer u && !u.is_superuser then
    ⟨db, .redirectNamed "national_dashboard", []⟩
  else
    match _get_user_center db u with
    | none =>
      if u.is_superuser then ⟨db, .redirectAdmin, []⟩
      else ⟨db, .forbidden
        "Your account is not linked to any Project Center. Contact the admin.", []⟩
    | some center =>
      if isPost then
        match full_clean db none raw.participant_name raw.participant_id
            raw.sex raw.caregiver_name raw.house_latitude raw.house_longitude with
        | some c =>
          let p : Participant :=
            { pk := db.nextParticipantPk, project_center := center,
              participant_name := c.participant_name,
              participant_id := c.participant_id, sex := c.sex,
              caregiver_name := c.caregiver_name,
              house_latitude := c.house_latitude,
              house_longitude := c.house_longitude }
          let db1 : DB :=
            { db with participants := db.participants ++ [p],
                      nextParticipantPk := db.nextParticipantPk + 1 }
          let db2 := _log_action logFails db1 (some u.username) "CREATE"
            (some center) (some p.participant_id)
            ("Created participant: " ++ p.participant_name)
          ⟨db2, .redirectNamed "participant_list",
           [("success", "Participant saved successfully.")]⟩
        | none => ⟨db, .page "centers/participant_form.html", []⟩
      else ⟨db, .page "centers/participant_form.html", []⟩

/-- `participant_edit` (lines 231-279): superusers and national officers are
redirected away; the target is looked up by pk restricted to the staff
center (`get_object_or_404`), a cross-center pk is therefore not found; a
valid POST rewrites the row in place and attempts an UPDATE audit entry. -/
def participant_edit (logFails : Bool) (db : DB) (u : User) (pk : Nat)
    (isPost : Bool) (raw : RawForm) : MutResult :=
  if u.is_superuser then ⟨db, .redirectAdmin, []⟩
  else if is_national_officer u then ⟨db, .redirectNamed "national_dashboard", []⟩
  else
    match _get_user_center db u with
    | none => ⟨db, .forbidden "You are not assigned to a Project Center.", []⟩
    | some center =>
      match db.participants.find?
          (fun p => p.pk == pk && p.project_center == center) with
      | none => ⟨db, .notFound, []⟩
      | some participant =>
        if isPost then
          match full_clean db (some participant.pk) raw.participant_name
              raw.participant_id raw.sex raw.caregiver_name
              raw.house_latitude raw.house_longitude with
          | some c =>
            let obj : Participant :=
              { pk := participant.pk, project_center := center,
                participant_name := c.participant_name,
                participant_id := c.participant_id, sex := c.sex,
                caregiver_name := c.caregiver_name,
                house_latitude := c.house_latitude,
                house_longitude := c.house_longitude }
            let db1 : DB :=
              { db with participants := (db.participants.map
                  (fun q => if q.pk == participant.pk then obj else q)) }
            let db2 := _log_action logFails db1 (some u.username) "UPDATE"
              (some center) (some obj.participant_id)
              ("Updated participant " ++ participant.participant_id ++ ".")
            ⟨db2, .redirectNamed "participant_list",
             [("success", "Participant updated successfully.")]⟩
          | none => ⟨db, .page "centers/participant_form.html", []⟩
        else ⟨db, .page "centers/participant_form.html", []⟩

/-- `participant_delete` (lines 282-315): same gating and center-scoped
lookup as edit; a POST logs a DELETE entry (best effort) and then removes
the row. -/
def participant_delete (logFails : Bool) (db : DB) (u : User) (pk : Nat)
    (isPost : Bool) : MutResult :=
  if u.is_superuser then ⟨db, .redirectAdmin, []⟩
  else if is_national_officer u then ⟨db, .redirectNamed "national_dashboard", []⟩
  else
    match _get_user_center db u with
    | none => ⟨db, .forbidden "You are not assigned to a Project Center.", []⟩
    | some center =>
      match db.participants.find?
          (fun p => p.pk == pk && p.project_center == center) with
      | none => ⟨db, .notFound, []⟩
      | some participant =>
        if isPost then
          let db1 := _log_action logFails db (some u.username) "DELETE"
            (some center) (some participant.participant_id)
            ("Deleted participant: " ++ participant.participant_name)
          let db2 : DB :=
            { db1 with participants :=
                db1.participants.filter (fun q => !(q.pk == participant.pk)) }
          ⟨db2, .redirectNamed "participant_list",
           [("success", "Deleted participant: " ++ participant.participant_name)]⟩
        else ⟨db, .page "centers/participant_confirm_delete.html", []⟩

/-- The three request shapes `participant_upload` distinguishes: a plain
GET, a POST with `confirm_import=1`, and a POST carrying a CSV file (with
the upload form's own validity). -/
inductive UploadRequest where
  | get
  | postConfirm
  | postFile (fieldnames : List String) (data : List (List String))
      (formOk : Bool)
  deriving Repr, DecidableEq

/-- Result of `participant_upload`: database, the session preview buffer
after the request, HTTP outcome, messages, and the rendered error excerpt
and preview rows. -/
structure ImportResult where
  db : DB
  session : Option (List Row)
  response : Response
  msgs : List (String × String)
  errors_shown : List String := []
  preview : List Row := []
  deriving Repr, DecidableEq

/-- `participant_upload` (lines 318-489).  Confirm branch: a missing or
empty session buffer is an error redirect; otherwise the commit loop runs,
exactly one CSV_IMPORT audit entry is attempted, the buffer is cleared and
a summary message is queued.  Upload branch: parse failures surface as an
error message (buffer untouched); a parsed file replaces the buffer and
renders a preview.  GET clears the buffer. -/
def participant_upload (logFails : Bool) (db : DB)
    (session : Option (List Row)) (u : User) (req : UploadRequest) :
    ImportResult :=
  if !is_national_or_superuser u then
    ⟨db, session, .forbidden "Only National Office can upload participants.",
     [], [], []⟩
  else
    match req with
    | .postConfirm =>
      let rows := session.getD []
      if rows.isEmpty then
        ⟨db, session, .redirectNamed "participant_upload",
         [("error", "No preview data found. Please upload again to preview.")],
         [], []⟩
      else
        let st := commitRows db rows
        let db1 := _log_action logFails st.db (some u.username) "CSV_IMPORT"
          none none (importDetails st.created st.skipped st.created_centers)
        let lvl := if st.created > 0 then "success" else "warning"
        ⟨db1, none, .page "centers/participant_upload.html",
         [(lvl, "Import complete. Created: " ++ toString st.created ++
            ", Skipped: " ++ toString st.skipped)],
         st.errors.take 50, []⟩
    | .postFile fieldnames data formOk =>
      if formOk then
        match parse_csv db fieldnames data with
        | .error e =>
          ⟨db, session, .page "centers/participant_upload.html",
           [("error", e)], [], []⟩
        | .ok rows =>
          ⟨db, some rows, .page "centers/participant_upload.html", [],
           [], rows.take 100⟩
      else
        ⟨db, none, .page "centers/participant_upload.html", [], [], []⟩
    | .get =>
      ⟨db, none, .page "centers/participant_upload.html", [], [], []⟩

/-! ## Concrete example data (used to witness the claim theorems) -/

/-- A project center with code `C1`. -/
def centerEx : ProjectCenter := { center_code := "C1" }

/-- A second center with code `C2`. -/
def centerEx2 : ProjectCenter := { center_code := "C2" }

/-- A participant of center `C1` with id `P0`. -/
def pEx : Participant :=
  { pk := 0, project_center := "C1", participant_name := "A",
    participant_id := "P0", sex := "M", caregiver_name := "B",
    house_latitude := 1, house_longitude := 2 }

/-- A participant of center `C2` with id `P9` and pk 5. -/
def pOther : Participant :=
  { pk := 5, project_center := "C2", participant_name := "Z",
    participant_id := "P9", sex := "F", caregiver_name := "W",
    house_latitude := 3, house_longitude := 4 }

/-- A database with one center, one participant and one staff profile. -/
def dbEx : DB :=
  { centers := [centerEx], participants := [pEx],
    profiles := [⟨"alice", "C1"⟩], auditLogs := [], nextParticipantPk := 1 }

/-- A database with two centers and a participant in each; `alice` is staff
of `C1`. -/
def dbEx2 : DB :=
  { centers := [centerEx, centerEx2], participants := [pEx, pOther],
    profiles := [⟨"alice", "C1"⟩], auditLogs := [], nextParticipantPk := 6 }

/-- A national-office user. -/
def natUser : User := ⟨"nat", false, ["National Office"], true⟩

/-- A staff user linked to center `C1`. -/
def staffUser : User := ⟨"alice", false, [], true⟩

/-- A fully valid staged row with fresh id `P1`. -/
def rowEx1 : Row := ⟨2, "C1", "N", "P1", "M", "CG", "1.0", "2.0", true, ""⟩

/-- A second fully valid staged row carrying the same fresh id `P1`. -/
def rowEx2 : Row := ⟨3, "C1", "N2", "P1", "F", "CG2", "1.5", "2.5", true, ""⟩

/-- A row already marked invalid at preview. -/
def invalidRowEx : Row := ⟨4, "", "", "", "", "", "", "", false, "center_code is empty"⟩

/-- A preview-valid row whose center code resolves to nothing. -/
def rowNoCenterEx : Row := ⟨5, "ZZ", "N", "P8", "M", "CG", "1.0", "2.0", true, ""⟩

/-- A preview-valid row whose id `P0` is already taken in `dbEx`. -/
def rowDupEx : Row := ⟨6, "C1", "N", "P0", "M", "CG", "1.0", "2.0", true, ""⟩

/-- A preview-valid row that fails `full_clean` (sex `X`). -/
def rowBadCleanEx : Row := ⟨7, "C1", "N", "P2", "X", "CG", "1.0", "2.0", true, ""⟩

/-- The initial commit accumulator over `dbEx`. -/
def stEx : CommitState := ⟨dbEx, 0, 0, [], []⟩

/-- The cleaned fields produced for `rowEx1`. -/
def cpEx : CleanedParticipant :=
  ⟨"N", "P1", "M", "CG", DecParse.val ⟨false, ['1'], ['0']⟩,
   DecParse.val ⟨false, ['2'], ['0']⟩⟩

/-- A persisted audit row (pk assigned). -/
def logEx : AuditLog := { pk := some 0, action := "CREATE" }

/-- A fresh, unsaved audit row. -/
def logNewEx : AuditLog := { action := "DELETE" }

/-- Raw header cells each carrying a leading space. -/
def wsFieldnames : List String :=
  [" center_code", " participant_name", " participant_id", " sex",
   " caregiver_name", " house_latitude", " house_longitude"]

/-- One CSV data row for the whitespace-header upload. -/
def wsData : List (List String) :=
  [["C1", "N", "P1", "m", "CG", "1.0", "2.0"]]

/-- The out-of-range latitude literal `95` as parsed. -/
def dLat95 : DecParse := ⟨false, ['9', '5'], []⟩

/-- Raw form data for a fresh participant `P1`. -/
def rawEx : RawForm := ⟨"N", "P1", "M", "CG", "1.0", "2.0"⟩

/-! ## Helper lemmas -/

theorem _log_action_eq (lf : Bool) (db : DB) (us : Option String) (a : String)
    (pc : Option String) (pid : Option String) (d : String) :
    _log_action lf db us a pc pid d =
      if lf then db
      else { db with auditLogs := db.auditLogs ++
        [{ pk := some db.auditLogs.length, user := us, action := a,
           project_center := pc, participant_id := pid, details := d }] } := by
  simp [_log_action, AuditLog.save]

theorem _log_action_participants (lf : Bool) (db : DB) (us : Option String)
    (a : String) (pc : Option String) (pid : Option String) (d : String) :
    (_log_action lf db us a pc pid d).participants = db.participants := by
  rw [_log_action_eq]; split <;> rfl

theorem _log_action_centers (lf : Bool) (db : DB) (us : Option String)
    (a : String) (pc : Option String) (pid : Option String) (d : String) :
    (_log_action lf db us a pc pid d).centers = db.centers := by
  rw [_log_action_eq]; split <;> rfl

theorem _log_action_profiles (lf : Bool) (db : DB) (us : Option String)
    (a : String) (pc : Option String) (pid : Option String) (d : String) :
    (_log_action lf db us a pc pid d).profiles = db.profiles := by
  rw [_log_action_eq]; split <;> rfl

theorem _log_action_nextPk (lf : Bool) (db : DB) (us : Option String)
    (a : String) (pc : Option String) (pid : Option String) (d : String) :
    (_log_action lf db us a pc pid d).nextParticipantPk =
      db.nextParticipantPk := by
  rw [_log_action_eq]; split <;> rfl

theorem commitStep_counts (st : CommitState) (r : Row) :
    (commitStep st r).created + (commitStep st r).skipped =
      st.created + st.skipped + 1 := by
  unfold commitStep
  split
  · simp; omega
  · split
    · simp; omega
    · split
      · simp; omega
      · split
        · simp; omega
        · simp; omega

theorem commitFold_counts (rows : List Row) :
    ∀ st : CommitState,
      (rows.foldl commitStep st).created + (rows.foldl commitStep st).skipped =
        st.created + st.skipped + rows.length := by
  induction rows with
  | nil => intro st; simp
  | cons r rest ih =>
    intro st
    have h1 := ih (commitStep st r)
    have h2 := commitStep_counts st r
    simp only [List.foldl_cons, List.length_cons]
    omega

theorem commitStep_frame (st : CommitState) (r : Row) :
    (commitStep st r).db.centers = st.db.centers ∧
    (commitStep st r).db.profiles = st.db.profiles ∧
    (commitStep st r).db.auditLogs = st.db.auditLogs := by
  unfold commitStep
  split
  · exact ⟨rfl, rfl, rfl⟩
  · split
    · exact ⟨rfl, rfl, rfl⟩
    · split
      · exact ⟨rfl, rfl, rfl⟩
      · split
        · exact ⟨rfl, rfl, rfl⟩
        · exact ⟨rfl, rfl, rfl⟩

theorem commitFold_frame (rows : List Row) :
    ∀ st : CommitState,
      (rows.foldl commitStep st).db.centers = st.db.centers ∧
      (rows.foldl commitStep st).db.profiles = st.db.profiles ∧
      (rows.foldl commitStep st).db.auditLogs = st.db.auditLogs := by
  induction rows with
  | nil => intro st; exact ⟨rfl, rfl, rfl⟩
  | cons r rest ih =>
    intro st
    have h1 := ih (commitStep st r)
    have h2 := commitStep_frame st r
    simp only [List.foldl_cons]
    exact ⟨h1.1.trans h2.1, h1.2.1.trans h2.2.1, h1.2.2.trans h2.2.2⟩

theorem participantIdTaken_none (db : DB) (pid : String) :
    participantIdTaken db none pid = participantIdExists db pid := by
  unfold participantIdTaken participantIdExists
  congr 1
  funext p
  have hne : (none != some p.pk) = true := rfl
  rw [hne, Bool.and_true]

theorem full_clean_dup_none (db : DB) (pid : String)
    (h : participantIdExists db pid = true)
    (pname sex cg lat lng : String) :
    full_clean db none pname pid sex cg lat lng = none := by
  unfold full_clean
  split
  · rfl
  · split
    · rfl
    · split
      · rfl
      · rename_i h3
        rw [participantIdTaken_none db pid, h] at h3
        simp at h3

theorem full_clean_fields (db : DB) (epk : Option Nat)
    (pname pid sex cg lat lng : String) (cp : CleanedParticipant)
    (h : full_clean db epk pname pid sex cg lat lng = some cp) :
    cp.participant_name = pname ∧ cp.participant_id = pid ∧
    cp.sex = sex ∧ cp.caregiver_name = cg := by
  unfold full_clean at h
  split at h
  · exact absurd h (by simp)
  · split at h
    · exact absurd h (by simp)
    · split at h
      · exact absurd h (by simp)
      · split at h
        · exact absurd h (by simp)
        · split at h
          · exact absurd h (by simp)
          · split at h
            · rename_i la lo _ _
              cases h
              exact ⟨rfl, rfl, rfl, rfl⟩
            · exact absurd h (by simp)

theorem validateRow_valid_spec (db : DB) (r : Row)
    (h : (validateRow db r).is_valid = true) :
    validateRow db r = r ∧ r.is_valid = true ∧
    (r.center_code == "") = false ∧
    (∃ c, findCenter db r.center_code = some c) ∧
    participantIdExists db r.participant_id = false ∧
    (∃ cp, full_clean db none r.participant_name r.participant_id r.sex
      r.caregiver_name r.house_latitude r.house_longitude = some cp) := by
  unfold validateRow at h ⊢
  split at h
  · simp at h
  · split at h
    · simp at h
    · split at h
      · simp at h
      · split at h
        · simp at h
        · split at h
          · simp at h
          · rename_i hcc xo cen hceq hpid hex xcp cp hclean
            have hcc2 : (r.center_code == "") = false := by simpa using hcc
            have hpid2 : (r.participant_id == "") = false := by simpa using hpid
            have hex2 : participantIdExists db r.participant_id = false := by
              simpa using hex
            refine ⟨?_, h, hcc2, ⟨cen, hceq⟩, hex2, ⟨cp, hclean⟩⟩
            simp [hcc2, hceq, hpid2, hex2, hclean]

theorem participant_add_logFails (lf : Bool) (db : DB) (u : User)
    (isPost : Bool) (raw : RawForm) :
    (participant_add lf db u isPost raw).db.participants =
      (participant_add false db u isPost raw).db.participants ∧
    (participant_add lf db u isPost raw).db.centers =
      (participant_add false db u isPost raw).db.centers ∧
    (participant_add lf db u isPost raw).db.profiles =
      (participant_add false db u isPost raw).db.profiles ∧
    (participant_add lf db u isPost raw).response =
      (participant_add false db u isPost raw).response ∧
    (participant_add lf db u isPost raw).msgs =
      (participant_add false db u isPost raw).msgs := by
  unfold participant_add
  split
  · exact ⟨rfl, rfl, rfl, rfl, rfl⟩
  · split
    · split <;> exact ⟨rfl, rfl, rfl, rfl, rfl⟩
    · split
      · split
        · exact ⟨by simp [_log_action_participants],
                 by simp [_log_action_centers],
                 by simp [_log_action_profiles], rfl, rfl⟩
        · exact ⟨rfl, rfl, rfl, rfl, rfl⟩
      · exact ⟨rfl, rfl, rfl, rfl, rfl⟩

theorem participant_edit_logFails (lf : Bool) (db : DB) (u : User) (pk : Nat)
    (isPost : Bool) (raw : RawForm) :
    (participant_edit lf db u pk isPost raw).db.participants =
      (participant_edit false db u pk isPost raw).db.participants ∧
    (participant_edit lf db u pk isPost raw).db.centers =
      (participant_edit false db u pk isPost raw).db.centers ∧
    (participant_edit lf db u pk isPost raw).db.profiles =
      (participant_edit false db u pk isPost raw).db.profiles ∧
    (participant_edit lf db u pk isPost raw).response =
      (participant_edit false db u pk isPost raw).response ∧
    (participant_edit lf db u pk isPost raw).msgs =
      (participant_edit false db u pk isPost raw).msgs := by
  unfold participant_edit
  split
  · exact ⟨rfl, rfl, rfl, rfl, rfl⟩
  · split
    · exact ⟨rfl, rfl, rfl, rfl, rfl⟩
    · split
      · exact ⟨rfl, rfl, rfl, rfl, rfl⟩
      · split
        · exact ⟨rfl, rfl, rfl, rfl, rfl⟩
        · split
          · split
            · exact ⟨by simp [_log_action_participants],
                     by simp [_log_action_centers],
                     by simp [_log_action_profiles], rfl, rfl⟩
            · exact ⟨rfl, rfl, rfl, rfl, rfl⟩
          · exact ⟨rfl, rfl, rfl, rfl, rfl⟩

theorem participant_delete_logFails (lf : Bool) (db : DB) (u : User) (pk : Nat)
    (isPost : Bool) :
    (participant_delete lf db u pk isPost).db.participants =
      (participant_delete false db u pk isPost).db.participants ∧
    (participant_delete lf db u pk isPost).db.centers =
      (participant_delete false db u pk isPost).db.centers ∧
    (participant_delete lf db u pk isPost).db.profiles =
      (participant_delete false db u pk isPost).db.profiles ∧
    (participant_delete lf db u pk isPost).response =
      (participant_delete false db u pk isPost).response ∧
    (participant_delete lf db u pk isPost).msgs =
      (participant_delete false db u pk isPost).msgs := by
  unfold participant_delete
  split
  · exact ⟨rfl, rfl, rfl, rfl, rfl⟩
  · split
    · exact ⟨rfl, rfl, rfl, rfl, rfl⟩
    · split
      · exact ⟨rfl, rfl, rfl, rfl, rfl⟩
      · split
        · exact ⟨rfl, rfl, rfl, rfl, rfl⟩
        · split
          · exact ⟨by simp [_log_action_participants],
                   by simp [_log_action_centers],
                   by simp [_log_action_profiles], rfl, rfl⟩
          · exact ⟨rfl, rfl, rfl, rfl, rfl⟩

theorem participant_upload_logFails (lf : Bool) (db : DB)
    (session : Option (List Row)) (u : User) (req : UploadRequest) :
    (participant_upload lf db session u req).db.participants =
      (participant_upload false db session u req).db.participants ∧
    (participant_upload lf db session u req).db.centers =
      (participant_upload false db session u req).db.centers ∧
    (participant_upload lf db session u req).db.profiles =
      (participant_upload false db session u req).db.profiles ∧
    (participant_upload lf db session u req).session =
      (participant_upload false db session u req).session ∧
    (participant_upload lf db session u req).response =
      (participant_upload false db session u req).response ∧
    (participant_upload lf db session u req).msgs =
      (participant_upload false db session u req).msgs := by
  unfold participant_upload
  split
  · exact ⟨rfl, rfl, rfl, rfl, rfl, rfl⟩
  · split
    · dsimp only
      split
      · exact ⟨rfl, rfl, rfl, rfl, rfl, rfl⟩
      · exact ⟨by simp [_log_action_participants],
               by simp [_log_action_centers],
               by simp [_log_action_profiles], rfl, rfl, rfl⟩
    · split
      · split <;> exact ⟨rfl, rfl, rfl, rfl, rfl, rfl⟩
      · exact ⟨rfl, rfl, rfl, rfl, rfl, rfl⟩
    · exact ⟨rfl, rfl, rfl, rfl, rfl, rfl⟩

/-! ## Claim theorems -/

/-- Claim C1: for every confirm-import commit over a non-empty staged row
set, the number of participants created plus the number of rows skipped
equals the total number of staged rows, and exactly one CSV_IMPORT audit
entry is appended whose details record those same Created and Skipped
counts and the involved center codes, regardless of how many rows
succeeded (including zero). -/
theorem confirm_import_counts_and_single_audit (db : DB) (rows : List Row)
    (u : User) (hgate : is_national_or_superuser u = true) (hne : rows ≠ []) :
    (commitRows db rows).created + (commitRows db rows).skipped =
      rows.length ∧
    (participant_upload false db (some rows) u .postConfirm).db.auditLogs =
      db.auditLogs ++
        [{ pk := some db.auditLogs.length, user := some u.username,
           action := "CSV_IMPORT", project_center := none,
           participant_id := none,
           details := importDetails (commitRows db rows).created
             (commitRows db rows).skipped
             (commitRows db rows).created_centers }] := by
  have hcounts := commitFold_counts rows ⟨db, 0, 0, [], []⟩
  have hframe : (commitRows db rows).db.auditLogs = db.auditLogs :=
    (commitFold_frame rows ⟨db, 0, 0, [], []⟩).2.2
  have hne2 : rows.isEmpty = false := by
    cases rows with
    | nil => exact absurd rfl hne
    | cons a t => rfl
  constructor
  · simpa [commitRows] using hcounts
  · unfold participant_upload
    simp only [hgate, Bool.not_true, Bool.false_eq_true, if_false,
      Option.getD_some, hne2, _log_action_eq, if_neg]
    rw [hframe]

/-- Claim C2: an already-persisted AuditLog row (its pk set) rejects any
save (update) and any delete attempt with a `ValidationError` — the
`Except.error` carries no updated row list, modelling a raise before any
storage mutation — while saving a fresh row (pk not yet set) succeeds and
appends exactly that row. -/
theorem auditlog_immutable_once_persisted (log : AuditLog)
    (logs : List AuditLog) (n : Nat) :
    (log.pk = some n →
      AuditLog.save log logs =
        .error "Audit logs are immutable and cannot be edited.") ∧
    AuditLog.delete log logs =
      .error "Audit logs are immutable and cannot be deleted." ∧
    (log.pk = none →
      AuditLog.save log logs =
        .ok (logs ++ [{ log with pk := some logs.length }])) := by
  refine ⟨fun h => ?_, rfl, fun h => ?_⟩
  · simp [AuditLog.save, h]
  · simp [AuditLog.save, h]

/-- Claim C4: a confirm-import request whose session preview buffer is
missing or empty changes nothing in the database (no participants, no
audit entry), queues exactly the error message, and redirects back to the
upload page. -/
theorem confirm_import_empty_session_noop (lf : Bool) (db : DB)
    (session : Option (List Row)) (u : User)
    (hgate : is_national_or_superuser u = true)
    (hempty : session = none ∨ session = some []) :
    (participant_upload lf db session u .postConfirm).db = db ∧
    (participant_upload lf db session u .postConfirm).response =
      .redirectNamed "participant_upload" ∧
    (participant_upload lf db session u .postConfirm).msgs =
      [("error", "No preview data found. Please upload again to preview.")] := by
  rcases hempty with h | h <;> subst h <;>
    simp [participant_upload, hgate]

/-- Claim C8: for every mutation handler (create, update, delete, CSV
import), a raising audit-log backend (`lf = true`) is swallowed: the
handler produces the same participant table, the same HTTP outcome and the
same messages as when logging succeeds, so the primary mutation completes
and reports success exactly as in the non-failing run. -/
theorem logging_failure_never_blocks_handlers (lf : Bool) (db : DB)
    (u : User) (isPost : Bool) (raw : RawForm) (pk : Nat)
    (session : Option (List Row)) (req : UploadRequest) :
    ((participant_add lf db u isPost raw).db.participants =
        (participant_add false db u isPost raw).db.participants ∧
      (participant_add lf db u isPost raw).response =
        (participant_add false db u isPost raw).response ∧
      (participant_add lf db u isPost raw).msgs =
        (participant_add false db u isPost raw).msgs) ∧
    ((participant_edit lf db u pk isPost raw).db.participants =
        (participant_edit false db u pk isPost raw).db.participants ∧
      (participant_edit lf db u pk isPost raw).response =
        (participant_edit false db u pk isPost raw).response ∧
      (participant_edit lf db u pk isPost raw).msgs =
        (participant_edit false db u pk isPost raw).msgs) ∧
    ((participant_delete lf db u pk isPost).db.participants =
        (participant_delete false db u pk isPost).db.participants ∧
      (participant_delete lf db u pk isPost).response =
        (participant_delete false db u pk isPost).response ∧
      (participant_delete lf db u pk isPost).msgs =
        (participant_delete false db u pk isPost).msgs) ∧
    ((participant_upload lf db session u req).db.participants =
        (participant_upload false db session u req).db.participants ∧
      (participant_upload lf db session u req).session =
        (participant_upload false db session u req).session ∧
      (participant_upload lf db session u req).response =
        (participant_upload false db session u req).response ∧
      (participant_upload lf db session u req).msgs =
        (participant_upload false db session u req).msgs) := by
  obtain ⟨a1, _, _, a4, a5⟩ := participant_add_logFails lf db u isPost raw
  obtain ⟨e1, _, _, e4, e5⟩ := participant_edit_logFails lf db u pk isPost raw
  obtain ⟨d1, _, _, d4, d5⟩ := participant_delete_logFails lf db u pk isPost
  obtain ⟨u1, _, _, u4, u5, u6⟩ :=
    participant_upload_logFails lf db session u req
  exact ⟨⟨a1, a4, a5⟩, ⟨e1, e4, e5⟩, ⟨d1, d4, d5⟩, ⟨u1, u4, u5, u6⟩⟩

/-- Claim C3: once a participant id is committed to the database, neither
path creates a second participant with it: the CSV preview marks any row
carrying that id invalid, the commit loop re-check leaves the participant
table unchanged (and creates nothing) for such a row, and the direct
create form rejects it via the uniqueness check, leaving the table
unchanged. -/
theorem participant_id_never_recreated (db : DB) (pid : String)
    (h : participantIdExists db pid = true) :
    (∀ r : Row, r.participant_id = pid →
      (validateRow db r).is_valid = false) ∧
    (∀ st : CommitState, ∀ r : Row, st.db = db → r.participant_id = pid →
      (commitStep st r).db.participants = db.participants ∧
      (commitStep st r).created = st.created) ∧
    (∀ (lf : Bool) (u : User) (isPost : Bool) (raw : RawForm),
      raw.participant_id = pid →
      (participant_add lf db u isPost raw).db.participants =
        db.participants) := by
  refine ⟨fun r hr => ?_, fun st r hst hr => ?_, fun lf u isPost raw hraw => ?_⟩
  · by_contra h2
    have h3 : (validateRow db r).is_valid = true := by
      simpa using h2
    obtain ⟨_, _, _, _, hex, _⟩ := validateRow_valid_spec db r h3
    rw [hr, h] at hex
    simp at hex
  · subst hst
    unfold commitStep
    split
    · exact ⟨rfl, rfl⟩
    · split
      · exact ⟨rfl, rfl⟩
      · split
        · exact ⟨rfl, rfl⟩
        · rename_i hnex
          rw [hr, h] at hnex
          simp at hnex
  · unfold participant_add
    split
    · rfl
    · split
      · split <;> rfl
      · split
        · split
          · rename_i cp hclean
            rw [hraw, full_clean_dup_none db pid h] at hclean
            cases hclean
          · rfl
        · rfl

/-- Claim C5: at commit time only rows marked valid at preview are
considered (an invalid row increments the skip count and touches nothing,
uniformly in the database state), and each considered row is re-validated
against the current database: a vanished center, an id that is now taken,
or a failing `full_clean` each count the row as a skip, while a row
passing every re-check is saved; no case aborts, each case yields the next
accumulator. -/
theorem commit_considers_only_valid_and_rechecks (st : CommitState) (r : Row)
    (center : ProjectCenter) (cp : CleanedParticipant) :
    (r.is_valid = false →
      commitStep st r = { st with skipped := st.skipped + 1 }) ∧
    (r.is_valid = true → findCenter st.db r.center_code = none →
      commitStep st r = { st with
        skipped := st.skipped + 1,
        errors := st.errors ++ ["Row " ++ toString r.row_number ++
          ": ProjectCenter matching query does not exist."] }) ∧
    (r.is_valid = true → findCenter st.db r.center_code = some center →
      participantIdExists st.db r.participant_id = true →
      commitStep st r = { st with skipped := st.skipped + 1 }) ∧
    (r.is_valid = true → findCenter st.db r.center_code = some center →
      participantIdExists st.db r.participant_id = false →
      full_clean st.db none r.participant_name r.participant_id r.sex
        r.caregiver_name r.house_latitude r.house_longitude = none →
      commitStep st r = { st with
        skipped := st.skipped + 1,
        errors := st.errors ++ ["Row " ++ toString r.row_number ++
          ": validation failed"] }) ∧
    (r.is_valid = true → findCenter st.db r.center_code = some center →
      participantIdExists st.db r.participant_id = false →
      full_clean st.db none r.participant_name r.participant_id r.sex
        r.caregiver_name r.house_latitude r.house_longitude = some cp →
      commitStep st r = { st with
        db := { st.db with
          participants := (st.db.participants ++
            [{ pk := st.db.nextParticipantPk,
               project_center := center.center_code,
               participant_name := cp.participant_name,
               participant_id := cp.participant_id, sex := cp.sex,
               caregiver_name := cp.caregiver_name,
               house_latitude := cp.house_latitude,
               house_longitude := cp.house_longitude }]),
          nextParticipantPk := st.db.nextParticipantPk + 1 },
        created := st.created + 1,
        created_centers := insertCenterCode st.created_centers
          center.center_code }) := by
  refine ⟨fun h1 => ?_, fun h1 h2 => ?_, fun h1 h2 h3 => ?_,
    fun h1 h2 h3 h4 => ?_, fun h1 h2 h3 h4 => ?_⟩ <;>
    simp [commitStep, h1]
  · rw [h2]
  · rw [h2]; simp [h3]
  · rw [h2]; simp [h3, h4]
  · rw [h2]; simp [h3, h4]

/-- Claim C6: a staff identity scoped to one center sees only that
center's participants in the list view, and an edit or delete request
aimed at a participant of a different center (looked up by its pk) yields
a not-found response with the database unchanged. -/
theorem staff_cannot_cross_centers (db : DB) (u : User) (c : String)
    (pk : Nat) (p : Participant) (lf : Bool) (isPost : Bool) (raw : RawForm)
    (hc : _get_user_center db u = some c)
    (hsu : u.is_superuser = false)
    (hno : is_national_officer u = false)
    (hp : p ∈ db.participants) (hpk : p.pk = pk)
    (huniq : ∀ q ∈ db.participants, q.pk = pk → q = p)
    (hdiff : p.project_center ≠ c) :
    (∀ q ∈ (participant_list db u).2, q.project_center = c) ∧
    (participant_edit lf db u pk isPost raw).db = db ∧
    (participant_edit lf db u pk isPost raw).response = .notFound ∧
    (participant_delete lf db u pk isPost).db = db ∧
    (participant_delete lf db u pk isPost).response = .notFound := by
  have hfind : db.participants.find?
      (fun q => q.pk == pk && q.project_center == c) = none := by
    apply List.find?_eq_none.mpr
    intro q hq hB
    simp only [Bool.and_eq_true] at hB
    obtain ⟨hb1, hb2⟩ := hB
    have hq2 : q = p := huniq q hq (by simpa using hb1)
    subst hq2
    exact hdiff (by simpa using hb2)
  refine ⟨fun q hq => ?_, ?_, ?_, ?_, ?_⟩
  · unfold participant_list at hq
    rw [hc] at hq
    simp only [List.mem_filter] at hq
    exact by simpa using hq.2
  · simp [participant_edit, hsu, hno, hc, hfind]
  · simp [participant_edit, hsu, hno, hc, hfind]
  · simp [participant_delete, hsu, hno, hc, hfind]
  · simp [participant_delete, hsu, hno, hc, hfind]

theorem cleanDecimal_out_of_range (lo hi : Int) (s : String) (d : DecParse)
    (hp : decParse s = some d)
    (hout : d.val < (lo : Rat) ∨ (hi : Rat) < d.val) :
    cleanDecimal lo hi s = none := by
  unfold cleanDecimal
  rw [hp]
  have hfalse : decide (lo * 10 ^ d.scale ≤ d.scaledNum) = false ∨
      decide (d.scaledNum ≤ hi * 10 ^ d.scale) = false := by
    rcases hout with h | h
    · left
      have hn : ¬ (lo * 10 ^ d.scale ≤ d.scaledNum) := fun hle =>
        absurd ((DecParse.int_le_val_iff d lo).mpr hle) (not_le.mpr h)
      simpa using hn
    · right
      have hn : ¬ (d.scaledNum ≤ hi * 10 ^ d.scale) := fun hle =>
        absurd ((DecParse.val_le_int_iff d hi).mpr hle) (not_le.mpr h)
      simpa using hn
  rcases hfalse with h | h <;> simp [h]

theorem full_clean_geo_none (db : DB) (epk : Option Nat)
    (pname pid sex cg latS lngS : String)
    (h : cleanDecimal (-90) 90 latS = none ∨
      cleanDecimal (-180) 180 lngS = none) :
    full_clean db epk pname pid sex cg latS lngS = none := by
  unfold full_clean
  split
  · rfl
  · split
    · rfl
    · split
      · rfl
      · split
        · rfl
        · split
          · rfl
          · rcases h with h | h
            · rw [h]
            · cases hla : cleanDecimal (-90) 90 latS <;> rw [h]

/-- Claim C7: a record whose house latitude parses to a value outside
[-90, 90] or whose house longitude parses to a value outside [-180, 180]
is rejected on both paths: `full_clean` (the validation backing the direct
form) fails, the CSV preview marks any row carrying those strings invalid,
the commit loop skips such a row without touching the database, and the
direct-create handler leaves the participant table unchanged. -/
theorem geo_out_of_range_rejected (latS lngS : String)
    (h : (∃ d, decParse latS = some d ∧ (d.val < -90 ∨ 90 < d.val)) ∨
         (∃ d, decParse lngS = some d ∧ (d.val < -180 ∨ 180 < d.val))) :
    (∀ (db : DB) (epk : Option Nat) (pname pid sex cg : String),
      full_clean db epk pname pid sex cg latS lngS = none) ∧
    (∀ (db : DB) (r : Row), r.house_latitude = latS →
      r.house_longitude = lngS → (validateRow db r).is_valid = false) ∧
    (∀ (st : CommitState) (r : Row), r.house_latitude = latS →
      r.house_longitude = lngS →
      (commitStep st r).db = st.db ∧ (commitStep st r).created = st.created ∧
      (commitStep st r).skipped = st.skipped + 1) ∧
    (∀ (lf : Bool) (db : DB) (u : User) (raw : RawForm),
      raw.house_latitude = latS → raw.house_longitude = lngS →
      (participant_add lf db u true raw).db.participants =
        db.participants) := by
  have hclean : cleanDecimal (-90) 90 latS = none ∨
      cleanDecimal (-180) 180 lngS = none := by
    rcases h with ⟨d, hp, ho⟩ | ⟨d, hp, ho⟩
    · exact Or.inl (cleanDecimal_out_of_range _ _ _ _ hp (by exact_mod_cast ho))
    · exact Or.inr (cleanDecimal_out_of_range _ _ _ _ hp (by exact_mod_cast ho))
  have hfc : ∀ (db : DB) (epk : Option Nat) (pname pid sex cg : String),
      full_clean db epk pname pid sex cg latS lngS = none :=
    fun db epk pname pid sex cg => full_clean_geo_none db epk _ _ _ _ _ _ hclean
  refine ⟨hfc, fun db r hl hg => ?_, fun st r hl hg => ?_,
    fun lf db u raw hl hg => ?_⟩
  · by_contra h2
    have h3 : (validateRow db r).is_valid = true := by simpa using h2
    obtain ⟨_, _, _, _, _, cp, hcp⟩ := validateRow_valid_spec db r h3
    rw [hl, hg, hfc] at hcp
    cases hcp
  · unfold commitStep
    split
    · exact ⟨rfl, rfl, rfl⟩
    · split
      · exact ⟨rfl, rfl, rfl⟩
      · split
        · exact ⟨rfl, rfl, rfl⟩
        · split
          · exact ⟨rfl, rfl, rfl⟩
          · rename_i cp hcp
            rw [hl, hg, hfc] at hcp
            cases hcp
  · unfold participant_add
    split
    · rfl
    · split
      · split <;> rfl
      · split
        · split
          · rename_i cp hcp
            rw [hl, hg, hfc] at hcp
            cases hcp
          · rfl
        · rfl

/-- Claim C9: two rows of one batch that share a participant id not yet in
the database are both marked valid by the preview (its duplicate check
consults only the database), yet committing the pair creates exactly one
participant and skips the other, so the preview's valid count (2) exceeds
the number of records created (1). -/
theorem duplicate_batch_ids_first_wins (db : DB) (r1 r2 : Row)
    (hpid : r1.participant_id = r2.participant_id)
    (hv1 : (validateRow db r1).is_valid = true)
    (hv2 : (validateRow db r2).is_valid = true) :
    validateRow db r1 = r1 ∧ validateRow db r2 = r2 ∧
    (commitRows db [r1, r2]).created = 1 ∧
    (commitRows db [r1, r2]).skipped = 1 ∧
    List.countP (fun r => r.is_valid) [r1, r2] = 2 := by
  obtain ⟨heq1, hval1, _, ⟨c1, hc1⟩, hex1, cp1, hfc1⟩ :=
    validateRow_valid_spec db r1 hv1
  obtain ⟨heq2, hval2, _, ⟨c2, hc2⟩, hex2, cp2, hfc2⟩ :=
    validateRow_valid_spec db r2 hv2
  have hcp1 := full_clean_fields db none _ _ _ _ _ _ cp1 hfc1
  set p1 : Participant :=
    { pk := db.nextParticipantPk, project_center := c1.center_code,
      participant_name := cp1.participant_name,
      participant_id := cp1.participant_id, sex := cp1.sex,
      caregiver_name := cp1.caregiver_name,
      house_latitude := cp1.house_latitude,
      house_longitude := cp1.house_longitude } with hp1
  set db1 : DB :=
    { db with participants := db.participants ++ [p1],
              nextParticipantPk := db.nextParticipantPk + 1 } with hdb1
  have hstep1 : commitStep ⟨db, 0, 0, [], []⟩ r1 =
      ⟨db1, 1, 0, [], [c1.center_code]⟩ := by
    simp [commitStep, hval1, hc1, hex1, hfc1, insertCenterCode, hdb1, hp1]
  have hc2b : findCenter db1 r2.center_code = some c2 := hc2
  have hexists2 : participantIdExists db1 r2.participant_id = true := by
    unfold participantIdExists
    rw [hdb1]
    simp only [List.any_append]
    have : (p1.participant_id == r2.participant_id) = true := by
      rw [hp1]
      simp [hcp1.2.1, hpid]
    simp [this]
  have hstep2 : commitStep ⟨db1, 1, 0, [], [c1.center_code]⟩ r2 =
      ⟨db1, 1, 1, [], [c1.center_code]⟩ := by
    simp [commitStep, hval2, hc2b, hexists2]
  have hrows : commitRows db [r1, r2] = ⟨db1, 1, 1, [], [c1.center_code]⟩ := by
    unfold commitRows
    simp only [List.foldl_cons, List.foldl_nil]
    rw [hstep1, hstep2]
  exact ⟨heq1, heq2, by rw [hrows], by rw [hrows],
    by simp [List.countP_cons, hval1, hval2]⟩

theorem lookup_zip_none (k : String) :
    ∀ (l1 : List String) (l2 : List String),
      ¬ k ∈ l1 → (l1.zip l2).lookup k = none := by
  intro l1
  induction l1 with
  | nil => intro l2 h; simp
  | cons a t ih =>
    intro l2 h
    cases l2 with
    | nil => simp
    | cons b t2 =>
      have hka : (k == a) = false := by
        simp only [List.mem_cons, not_or] at h
        simpa using h.1
      simp only [List.zip_cons_cons, List.lookup, hka]
      exact ih t2 (by simp only [List.mem_cons, not_or] at h; exact h.2)

/-- Claim C10: when every required column name appears in the stripped
header list but none appears verbatim among the raw fieldnames (surrounding
whitespace on each header), `parse_csv` passes the required-column check
and succeeds, yet every data row's field lookup misses (the row dict is
keyed by the raw names), so every field is empty and every data row is
marked invalid (with the empty-center-code reason) instead of the upload
being rejected with a missing-columns error. -/
theorem whitespace_headers_all_rows_invalid (db : DB)
    (fieldnames : List String) (data : List (List String))
    (hne : fieldnames ≠ [])
    (hstrip : ∀ c ∈ required_cols, c ∈ fieldnames.map pyStrip)
    (hraw : ∀ c ∈ required_cols, ¬ c ∈ fieldnames) :
    ∃ rows, parse_csv db fieldnames data = .ok rows ∧
      rows.length = data.length ∧
      ∀ r ∈ rows, r.center_code = "" ∧ r.participant_name = "" ∧
        r.participant_id = "" ∧ r.sex = "" ∧ r.caregiver_name = "" ∧
        r.house_latitude = "" ∧ r.house_longitude = "" ∧
        r.is_valid = false ∧ r.error = "center_code is empty" := by
  have hN : fieldnames.isEmpty = false := by
    cases fieldnames with
    | nil => exact absurd rfl hne
    | cons a t => rfl
  have hmiss : required_cols.filter
      (fun c => !(fieldnames.map pyStrip).contains c) = [] := by
    apply List.filter_eq_nil_iff.mpr
    intro c hc
    have hmem := hstrip c hc
    simp only [List.mem_map] at hmem
    obtain ⟨x, hx, hxx⟩ := hmem
    simp only [Bool.not_eq_true, Bool.not_eq_true']
    simp
    exact ⟨x, hx, hxx⟩
  have hparse : parse_csv db fieldnames data = .ok (data.enum.map (fun pr =>
      validateRow db (buildRow (pr.1 + 2) (fieldnames.zip pr.2)))) := by
    unfold parse_csv
    rw [if_neg (by simp [hN])]
    dsimp only
    rw [hmiss]
    rfl
  refine ⟨_, hparse, by simp, ?_⟩
  intro r hr
  simp only [List.mem_map] at hr
  obtain ⟨⟨i, vals⟩, hmem, rfl⟩ := hr
  have hget : ∀ c ∈ required_cols, dictGet (fieldnames.zip vals) c = "" := by
    intro c hc
    unfold dictGet
    rw [lookup_zip_none c fieldnames vals (hraw c hc)]
    decide
  have h1 := hget "center_code" (by simp [required_cols])
  have h2 := hget "participant_name" (by simp [required_cols])
  have h3 := hget "participant_id" (by simp [required_cols])
  have h4 := hget "sex" (by simp [required_cols])
  have h5 := hget "caregiver_name" (by simp [required_cols])
  have h6 := hget "house_latitude" (by simp [required_cols])
  have h7 := hget "house_longitude" (by simp [required_cols])
  have hup : pyUpper "" = "" := rfl
  simp [validateRow, buildRow, h1, h2, h3, h4, h5, h6, h7, hup]

/-! ## Witnesses -/

/-- Witness for C1 at a two-row batch (one valid, one invalid) over `dbEx`. -/
theorem confirm_import_counts_and_single_audit_witness :
    (commitRows dbEx [rowEx1, invalidRowEx]).created +
        (commitRows dbEx [rowEx1, invalidRowEx]).skipped =
      [rowEx1, invalidRowEx].length ∧
    (participant_upload false dbEx (some [rowEx1, invalidRowEx]) natUser
        .postConfirm).db.auditLogs =
      dbEx.auditLogs ++
        [{ pk := some dbEx.auditLogs.length, user := some natUser.username,
           action := "CSV_IMPORT", project_center := none,
           participant_id := none,
           details := importDetails
             (commitRows dbEx [rowEx1, invalidRowEx]).created
             (commitRows dbEx [rowEx1, invalidRowEx]).skipped
             (commitRows dbEx [rowEx1, invalidRowEx]).created_centers }] :=
  confirm_import_counts_and_single_audit dbEx [rowEx1, invalidRowEx] natUser
    rfl (by simp)

/-- Witness for C2 at a persisted and a fresh audit row. -/
theorem auditlog_immutable_once_persisted_witness :
    AuditLog.save logEx [logEx] =
      .error "Audit logs are immutable and cannot be edited." ∧
    AuditLog.delete logEx [logEx] =
      .error "Audit logs are immutable and cannot be deleted." ∧
    AuditLog.save logNewEx [] = .ok [{ logNewEx with pk := some 0 }] :=
  ⟨(auditlog_immutable_once_persisted logEx [logEx] 0).1 rfl,
   (auditlog_immutable_once_persisted logEx [logEx] 0).2.1,
   (auditlog_immutable_once_persisted logNewEx [] 0).2.2 rfl⟩

/-- Witness for C3 at `dbEx`, whose id `P0` is already committed. -/
theorem participant_id_never_recreated_witness :
    (∀ r : Row, r.participant_id = "P0" →
      (validateRow dbEx r).is_valid = false) ∧
    (∀ st : CommitState, ∀ r : Row, st.db = dbEx → r.participant_id = "P0" →
      (commitStep st r).db.participants = dbEx.participants ∧
      (commitStep st r).created = st.created) ∧
    (∀ (lf : Bool) (u : User) (isPost : Bool) (raw : RawForm),
      raw.participant_id = "P0" →
      (participant_add lf dbEx u isPost raw).db.participants =
        dbEx.participants) :=
  participant_id_never_recreated dbEx "P0" rfl

/-- Witness for C4 at a missing session buffer. -/
theorem confirm_import_empty_session_noop_witness :
    (participant_upload false dbEx none natUser .postConfirm).db = dbEx ∧
    (participant_upload false dbEx none natUser .postConfirm).response =
      .redirectNamed "participant_upload" ∧
    (participant_upload false dbEx none natUser .postConfirm).msgs =
      [("error", "No preview data found. Please upload again to preview.")] :=
  confirm_import_empty_session_noop false dbEx none natUser rfl (Or.inl rfl)

/-- Witness for C5: one concrete row per commit-loop case over `stEx`. -/
theorem commit_considers_only_valid_and_rechecks_witness :
    commitStep stEx invalidRowEx = { stEx with skipped := stEx.skipped + 1 } ∧
    commitStep stEx rowNoCenterEx = { stEx with
      skipped := stEx.skipped + 1,
      errors := stEx.errors ++ ["Row " ++ toString rowNoCenterEx.row_number ++
        ": ProjectCenter matching query does not exist."] } ∧
    commitStep stEx rowDupEx = { stEx with skipped := stEx.skipped + 1 } ∧
    commitStep stEx rowBadCleanEx = { stEx with
      skipped := stEx.skipped + 1,
      errors := stEx.errors ++ ["Row " ++ toString rowBadCleanEx.row_number ++
        ": validation failed"] } ∧
    commitStep stEx rowEx1 = { stEx with
      db := { stEx.db with
        participants := (stEx.db.participants ++
          [{ pk := stEx.db.nextParticipantPk,
             project_center := centerEx.center_code,
             participant_name := cpEx.participant_name,
             participant_id := cpEx.participant_id, sex := cpEx.sex,
             caregiver_name := cpEx.caregiver_name,
             house_latitude := cpEx.house_latitude,
             house_longitude := cpEx.house_longitude }]),
        nextParticipantPk := stEx.db.nextParticipantPk + 1 },
      created := stEx.created + 1,
      created_centers := insertCenterCode stEx.created_centers
        centerEx.center_code } :=
  ⟨(commit_considers_only_valid_and_rechecks stEx invalidRowEx centerEx
      cpEx).1 rfl,
   (commit_considers_only_valid_and_rechecks stEx rowNoCenterEx centerEx
      cpEx).2.1 rfl rfl,
   (commit_considers_only_valid_and_rechecks stEx rowDupEx centerEx
      cpEx).2.2.1 rfl rfl rfl,
   (commit_considers_only_valid_and_rechecks stEx rowBadCleanEx centerEx
      cpEx).2.2.2.1 rfl rfl rfl rfl,
   (commit_considers_only_valid_and_rechecks stEx rowEx1 centerEx
      cpEx).2.2.2.2 rfl rfl rfl rfl⟩

/-- Witness for C6: `alice` (staff of C1) against `pOther` (center C2,
pk 5) in `dbEx2`. -/
theorem staff_cannot_cross_centers_witness :
    (∀ q ∈ (participant_list dbEx2 staffUser).2, q.project_center = "C1") ∧
    (participant_edit false dbEx2 staffUser 5 false rawEx).db = dbEx2 ∧
    (participant_edit false dbEx2 staffUser 5 false rawEx).response =
      .notFound ∧
    (participant_delete false dbEx2 staffUser 5 false).db = dbEx2 ∧
    (participant_delete false dbEx2 staffUser 5 false).response = .notFound :=
  staff_cannot_cross_centers dbEx2 staffUser "C1" 5 pOther false false rawEx
    rfl rfl rfl
    (by simp [dbEx2])
    rfl
    (by
      intro q hq hqpk
      simp only [dbEx2, List.mem_cons, List.not_mem_nil, or_false] at hq
      rcases hq with h | h
      · subst h; exact absurd hqpk (by decide)
      · exact h)
    (by decide)

/-- Witness for C7 at the out-of-range latitude string `95`. -/
theorem geo_out_of_range_rejected_witness :
    (∀ (db : DB) (epk : Option Nat) (pname pid sex cg : String),
      full_clean db epk pname pid sex cg "95" "2.0" = none) ∧
    (∀ (db : DB) (r : Row), r.house_latitude = "95" →
      r.house_longitude = "2.0" → (validateRow db r).is_valid = false) ∧
    (∀ (st : CommitState) (r : Row), r.house_latitude = "95" →
      r.house_longitude = "2.0" →
      (commitStep st r).db = st.db ∧ (commitStep st r).created = st.created ∧
      (commitStep st r).skipped = st.skipped + 1) ∧
    (∀ (lf : Bool) (db : DB) (u : User) (raw : RawForm),
      raw.house_latitude = "95" → raw.house_longitude = "2.0" →
      (participant_add lf db u true raw).db.participants =
        db.participants) :=
  geo_out_of_range_rejected "95" "2.0"
    (Or.inl ⟨dLat95, rfl, Or.inr (by
      have hn : ¬ DecParse.val dLat95 ≤ ((90 : Int) : Rat) := fun hle => by
        have h2 := (DecParse.val_le_int_iff dLat95 90).mp hle
        revert h2
        decide
      exact_mod_cast not_le.mp hn)⟩)

/-- Witness for C9 at the pair `rowEx1`, `rowEx2` (both carrying the fresh
id `P1`) over `dbEx`. -/
theorem duplicate_batch_ids_first_wins_witness :
    validateRow dbEx rowEx1 = rowEx1 ∧ validateRow dbEx rowEx2 = rowEx2 ∧
    (commitRows dbEx [rowEx1, rowEx2]).created = 1 ∧
    (commitRows dbEx [rowEx1, rowEx2]).skipped = 1 ∧
    List.countP (fun r => r.is_valid) [rowEx1, rowEx2] = 2 :=
  duplicate_batch_ids_first_wins dbEx rowEx1 rowEx2 rfl rfl rfl

/-- Witness for C10 at headers each padded with a leading space. -/
theorem whitespace_headers_all_rows_invalid_witness :
    ∃ rows, parse_csv dbEx wsFieldnames wsData = .ok rows ∧
      rows.length = wsData.length ∧
      ∀ r ∈ rows, r.center_code = "" ∧ r.participant_name = "" ∧
        r.participant_id = "" ∧ r.sex = "" ∧ r.caregiver_name = "" ∧
        r.house_latitude = "" ∧ r.house_longitude = "" ∧
        r.is_valid = false ∧ r.error = "center_code is empty" :=
  whitespace_headers_all_rows_invalid dbEx wsFieldnames wsData
    (by simp [wsFieldnames]) (by decide) (by decide)
